import Mathlib

set_option maxRecDepth 8192

/-!
Verification of the Vibe Assistant prompt-enhancement pipeline.

Shallow embedding of `backend/services/prompt_constructor.py`,
`backend/services/prompt_service.py`, `backend/services/prompt_config_loader.py`
and the `/api/enhance-prompt` handler of `backend/app.py`.

Python values that may be ill-typed at runtime (non-dict entries in
`file_context` or in architecture `layers`) are modelled by sum types with an
explicit non-dict constructor; operations that would raise on them return
`Except`.  Exceptions are modelled as `Except.error` carrying the message.
The repository ships no `config/prompt_config.json` next to the backend tree,
so `PromptConfigLoader` resolves to its embedded `_get_fallback_config`
catalog, which is what is embedded here.
-/

/-! ## Python string primitives -/

/-- Characters removed by Python `str.strip()` (ASCII whitespace). -/
def isPySpace (c : Char) : Bool :=
  c = ' ' || c = '\t' || c = '\n' || c = '\r' || c = '\x0b' || c = '\x0c'

/-- Python `str.strip()` on a character list. -/
def pyStripList (cs : List Char) : List Char :=
  ((cs.dropWhile isPySpace).reverse.dropWhile isPySpace).reverse

/-- Python `str.strip()`. -/
def pyStrip (s : String) : String :=
  ⟨pyStripList s.data⟩

/-- Case-folding used for Python `str.lower()` (ASCII inputs). -/
def pyLowerList (cs : List Char) : List Char :=
  cs.map Char.toLower

/-- Python `str.lower()`. -/
def pyLower (s : String) : String :=
  ⟨pyLowerList s.data⟩

/-- Is `pat` an infix of `s`?  Python `pat in s`. -/
def listInfix (pat : List Char) : List Char → Bool
  | [] => pat.isEmpty
  | c :: rest => pat.isPrefixOf (c :: rest) || listInfix pat rest

/-- Python `pat in s` on strings. -/
def strContains (s pat : String) : Bool :=
  listInfix pat.data s.data

/-! ## PromptConfigLoader `_get_fallback_config` -/

/-- `system_prompts` of the embedded fallback catalog. -/
def systemPromptsCatalog : List (String × String) :=
  [("default", "You are an expert AI coding assistant. Provide detailed, actionable specifications for coding projects."),
   ("full_specification", "You are an expert business analyst and technical architect specializing in comprehensive project planning. Create detailed functional and non-functional specifications with complete task breakdowns. Your specifications should include clear business benefits, detailed task lists, and proper testing phases."),
   ("enhanced_prompt", "You are an expert AI coding assistant specializing in structured implementation planning. Create clear 8-12 step implementation plans where each step includes both functional and non-functional requirements. Focus on actionable steps with clear requirement alignment."),
   ("rephrase", "You are an expert technical writer specializing in prompt optimization. Your task is to rephrase user input to make it more concise, clear, and effective for LLM processing while preserving the original intent and requirements.")]

/-- `PromptConfigLoader.get_system_prompt`. -/
def get_system_prompt (promptType : String) : String :=
  match systemPromptsCatalog.lookup promptType with
  | some p => p
  | none =>
    match systemPromptsCatalog.lookup "default" with
    | some p => p
    | none => "You are an expert AI coding assistant."

/-- One `enhancement_instructions` catalog entry. -/
structure EnhancementConfig where
  title : Option String
  description : Option String
  requirements : List String
  structureItems : List String
  outputFormat : List String
  importantNote : Option String
deriving DecidableEq

/-- `enhancement_instructions` of the embedded fallback catalog. -/
def enhancementInstructionsCatalog : List (String × EnhancementConfig) :=
  [("full_specification",
    { title := some "FULL SPECIFICATION REQUEST",
      description := some "Create a comprehensive functional and non-functional specification with detailed task planning.",
      requirements :=
        ["Start with a detailed description of the task including goals and business benefits",
         "Create a comprehensive list of tasks needed to complete the project",
         "If there are more than 10 tasks, organize them into logical task groups",
         "Add one round of testing at the end of each task group",
         "Each task should include relevant functional and non-functional requirements",
         "Consider all inputs: user requirements, non-functional requirements, selected files, and architecture context"],
      structureItems := [], outputFormat := [], importantNote := none }),
   ("enhanced_prompt",
    { title := some "ENHANCED IMPLEMENTATION PLAN",
      description := some "Create a structured 8-12 step implementation plan.",
      requirements :=
        ["Provide exactly 8-12 implementation steps",
         "Each step must include both functional and non-functional requirements",
         "Clearly outline requirements relevant to each specific step",
         "Place any transversal non-functional requirements at the end",
         "Structure as a numbered list with clear step descriptions",
         "Consider all inputs: user requirements, non-functional requirements, selected files, and architecture context"],
      structureItems := [], outputFormat := [], importantNote := none }),
   ("rephrase",
    { title := some "PROMPT OPTIMIZATION",
      description := some "Rephrase the user input to make it more concise and effective for LLM processing.",
      requirements :=
        ["Make the language more concise and clear",
         "Preserve the original intent and all requirements",
         "Optimize for LLM understanding and processing",
         "Do not add new instructions or split into tasks",
         "Focus only on improving clarity and conciseness"],
      structureItems := [], outputFormat := [], importantNote := none })]

/-- `validation_rules` of the embedded fallback catalog (numeric rules). -/
def validationRulesCatalog : List (String × Nat) :=
  [("min_prompt_length", 10),
   ("max_file_display", 10),
   ("max_components_per_layer", 10),
   ("max_total_components", 50)]

/-- `PromptConfigLoader.get_validation_rule` for the numeric rules. -/
def get_validation_rule (ruleName : String) : Option Nat :=
  validationRulesCatalog.lookup ruleName

/-- Python `x or d` on an optional number (`None` and `0` are falsy). -/
def pyOrNat (o : Option Nat) (d : Nat) : Nat :=
  match o with
  | none => d
  | some n => if n = 0 then d else n

/-- The `complexity_thresholds` sub-dict of the fallback `validation_rules`. -/
def complexityThresholds : List (String × Nat) :=
  [("low", 150), ("medium", 300), ("high", 500)]

/-- Python `str.replace(pat, rep)` where `pat` is the 11-character literal
placeholder `\x7btask_type\x7d`, scanning left to right. -/
def replaceTaskTypeAux (rep : List Char) : List Char → List Char
  | [] => []
  | c :: rest =>
    if ("\x7btask_type\x7d".data).isPrefixOf (c :: rest) then
      rep ++ replaceTaskTypeAux rep ((c :: rest).drop 11)
    else
      c :: replaceTaskTypeAux rep rest
termination_by cs => cs.length
decreasing_by
  · simp [List.length_drop]
    omega
  · simp

/-- `PromptConfigLoader._map_enhancement_type` (the loader variant, no
validity coercion). -/
def loader_map_enhancement_type (enhancementType : String) : String :=
  match enhancementType with
  | "maximum_detail" => "full_specification"
  | "balanced" => "enhanced_prompt"
  | "key_requirements" => "rephrase"
  | t => t

/-- `PromptConfigLoader.format_enhancement_instructions`.  The `try` body is
total on the embedded catalog, so the hard-coded fallback branch of the
`except` clause is unreachable and not modelled.  `get_task_guidelines`
always returns the empty list, so the task-guidelines section never renders. -/
def format_enhancement_instructions (enhancementType taskType : String) : String :=
  let mappedType := loader_map_enhancement_type enhancementType
  let cfg : EnhancementConfig :=
    match enhancementInstructionsCatalog.lookup mappedType with
    | some c => c
    | none =>
      match enhancementInstructionsCatalog.lookup "default" with
      | some c => c
      | none =>
        { title := none, description := none, requirements := [],
          structureItems := [], outputFormat := [], importantNote := none }
  let title := cfg.title.getD "ENHANCEMENT INSTRUCTIONS"
  let description0 := cfg.description.getD ""
  let description :=
    if strContains description0 "\x7btask_type\x7d" then
      ⟨replaceTaskTypeAux taskType.data description0.data⟩
    else description0
  let lines : List String :=
    ["## " ++ title, "", description, ""]
    ++ (if cfg.requirements ≠ [] then
          ["### Requirements:"] ++ cfg.requirements.map (fun r => "- " ++ r) ++ [""]
        else [])
    ++ (if cfg.structureItems ≠ [] then
          ["### Structure:"] ++ cfg.structureItems.map (fun r => "- " ++ r) ++ [""]
        else [])
    ++ (if cfg.outputFormat ≠ [] then
          ["### Output Format:"] ++ cfg.outputFormat.map (fun r => "- " ++ r) ++ [""]
        else [])
    ++ (match cfg.importantNote with
        | some n => if n ≠ "" then ["**Important:** " ++ n, ""] else []
        | none => [])
  String.intercalate "\n" lines

/-! ## PromptConstructor data model -/

/-- A well-typed `file_context` entry (a Python dict with optional
`name` / `path` / `type` keys). -/
structure FileDict where
  name : Option String
  path : Option String
  ftype : Option String
deriving DecidableEq

/-- A runtime `file_context` entry: either a dict or some non-dict value
(on which `.get` raises `AttributeError`). -/
inductive FileEntry where
  | dict (d : FileDict)
  | nonDict
deriving DecidableEq

/-- An architecture `nodes` entry: a dict or a plain string (the source
handles string nodes explicitly via `str(node)`). -/
inductive NodeVal where
  | dictN (name : Option String) (ntype : Option String) (descr : Option String)
  | strN (s : String)
deriving DecidableEq

/-- An architecture `layers` entry: a dict (optional `name`, `nodeCount`,
`nodes` keys) or some non-dict value. -/
inductive Layer where
  | dictL (name : Option String) (nodeCount : Option Nat) (nodes : List NodeVal)
  | nonDict
deriving DecidableEq

/-- The `application_architecture` argument: `None`, a `\x7blayers: [...]\x7d`
dict wrapper (dicts carrying a `layers` key are always non-empty, hence
truthy), a bare list of layers, or a dict whose `layers` value is neither a
list nor absent (for example `\x7blayers: 5\x7d`); on the latter,
`len(arch.get("layers", []))` and iteration over the value raise
`TypeError`. -/
inductive ArchValue where
  | noneV
  | dictV (layers : List Layer)
  | listV (layers : List Layer)
  | dictBadLayers
deriving DecidableEq

/-- Python truthiness of the `application_architecture` argument. -/
def archTruthy : ArchValue → Bool
  | .noneV => false
  | .dictV _ => true
  | .listV l => !l.isEmpty
  | .dictBadLayers => true

/-- Is the architecture argument one of the shapes the constructor handles
without raising (`None`, a bare layer list, or a dict whose `layers` value
is a list)? -/
def archWellTyped : ArchValue → Bool
  | .dictBadLayers => false
  | _ => true

/-! ## PromptConstructor -/

/-- `PromptConstructor._validate_inputs`: `user_input is not None`. -/
def validate_inputs (userInput : Option String) : Bool :=
  userInput.isSome

/-- `PromptConstructor._map_enhancement_type` (with validity coercion to
`enhanced_prompt`). -/
def map_enhancement_type (enhancementType : String) : String :=
  let mappedType := loader_map_enhancement_type enhancementType
  if mappedType = "full_specification" ∨ mappedType = "enhanced_prompt" ∨
     mappedType = "rephrase" ∨ mappedType = "default" then
    mappedType
  else
    "enhanced_prompt"

/-- Keyword test of `_analyze_task_characteristics`: any keyword occurs in
the lowercased user input. -/
def anyKeyword (userInput : String) (keywords : List String) : Bool :=
  keywords.any (fun kw => strContains (pyLower userInput) kw)

/-- `involves_new_features` of `_analyze_task_characteristics`. -/
def involves_new_features (userInput : String) : Bool :=
  anyKeyword userInput
    ["create", "add", "implement", "build", "develop", "new feature", "functionality"]

/-- `involves_refactoring` of `_analyze_task_characteristics`. -/
def involves_refactoring (userInput : String) : Bool :=
  anyKeyword userInput
    ["refactor", "improve", "optimize", "restructure", "clean up", "reorganize"]

/-- `involves_testing` of `_analyze_task_characteristics`. -/
def involves_testing (userInput : String) : Bool :=
  anyKeyword userInput
    ["test", "testing", "unit test", "integration test", "debug", "fix bug"]

/-- `involves_architecture` of `_analyze_task_characteristics`. -/
def involves_architecture (userInput : String) : Bool :=
  anyKeyword userInput
    ["architecture", "design", "pattern", "structure", "component", "layer"]

/-- Architecture-awareness sentence of `_generate_dynamic_system_prompt`. -/
def archAwarenessSentence : String :=
  "You have access to the application\x27s architecture context. Consider architectural layers, component relationships, and existing patterns when providing recommendations."

/-- Feature-development sentence of `_generate_dynamic_system_prompt`. -/
def featureSentence : String :=
  "Focus on feature development best practices, integration patterns, and ensuring new functionality aligns with existing architecture."

/-- Refactoring sentence of `_generate_dynamic_system_prompt`. -/
def refactorSentence : String :=
  "Emphasize code quality improvements, maintainability, and preserving existing functionality while enhancing structure."

/-- Testing sentence of `_generate_dynamic_system_prompt`. -/
def testingSentence : String :=
  "Prioritize comprehensive testing strategies, edge cases, and quality assurance practices that ensure reliability and robustness."

/-- The `dynamic_components` list of `_generate_dynamic_system_prompt`, in
the append order of the source: architecture awareness first, then feature /
refactor / testing guidance. -/
def dynamicComponents (userInput : String) (arch : ArchValue) : List String :=
  (if archTruthy arch then [archAwarenessSentence] else [])
  ++ (if involves_new_features userInput then [featureSentence] else [])
  ++ (if involves_refactoring userInput then [refactorSentence] else [])
  ++ (if involves_testing userInput then [testingSentence] else [])

/-- `PromptConstructor._generate_dynamic_system_prompt`.  The `try` body is
total in this model, so the `except` fallback to the default system prompt is
unreachable and not modelled. -/
def generate_dynamic_system_prompt (userInput enhancementType : String)
    (arch : ArchValue) : String :=
  let basePrompt := get_system_prompt enhancementType
  let comps := dynamicComponents userInput arch
  if comps ≠ [] then
    basePrompt ++ "\n\nAdditional Context:\n"
      ++ String.intercalate "\n" (comps.map (fun c => "- " ++ c))
  else
    basePrompt

/-- Display name of a file entry: `file_info.get("name", file_info.get("path", "Unknown"))`. -/
def fileDisplayName (d : FileDict) : String :=
  d.name.getD (d.path.getD "Unknown")

/-- Display type of a file entry: `file_info.get("type", "file")`. -/
def fileDisplayType (d : FileDict) : String :=
  d.ftype.getD "file"

/-- The bullet line rendered for one file dict. -/
def fileBullet (d : FileDict) : String :=
  "- **" ++ fileDisplayName d ++ "** (" ++ fileDisplayType d ++ ")"

/-- The `for file_info in file_context[:max_files]` loop body: `.get` on a
non-dict entry raises `AttributeError`. -/
def fileLinesLoop : List FileEntry → Except String (List String)
  | [] => .ok []
  | .dict d :: rest => (fileLinesLoop rest).map (fun ls => fileBullet d :: ls)
  | .nonDict :: _ => .error "AttributeError: \x27int\x27 object has no attribute \x27get\x27"

/-- The `## CODEBASE CONTEXT` block of `_build_main_prompt` (empty when the
file list is empty, i.e. falsy). -/
def fileContextLines (files : List FileEntry) : Except String (List String) :=
  if files.isEmpty then .ok []
  else
    let maxFiles := pyOrNat (get_validation_rule "max_file_display") 10
    (fileLinesLoop (files.take maxFiles)).map (fun bullets =>
      ["## CODEBASE CONTEXT",
       "Selected files for context (" ++ toString files.length ++ " files):"]
      ++ bullets
      ++ (if files.length > maxFiles then
            ["- ... and " ++ toString (files.length - maxFiles) ++ " more files"]
          else [])
      ++ [""])

/-- The line rendered for one architecture node. -/
def nodeLine : NodeVal → String
  | .dictN name ntype descr =>
    let descText := if descr.getD "" ≠ "" then " - " ++ descr.getD "" else ""
    "  - " ++ name.getD "Unknown Component" ++ " (" ++ ntype.getD "component" ++ ")" ++ descText
  | .strN s => "  - " ++ s

/-- The lines rendered for one layer by `_format_architecture_context`;
non-dict layers are skipped (`continue`) and contribute nothing. -/
def layerBlock (maxComponents : Nat) : Layer → List String
  | .nonDict => []
  | .dictL name nodeCount nodes =>
    ["**" ++ name.getD "Unknown Layer" ++ "** (" ++ toString (nodeCount.getD 0) ++ " components):"]
    ++ (nodes.take maxComponents).map nodeLine
    ++ (if nodes.length > maxComponents then
          ["  - ... and " ++ toString (nodes.length - maxComponents) ++ " more components"]
        else [])
    ++ [""]

/-- The `total_components` sum of `_format_architecture_context`, which
explicitly skips non-dict layers. -/
def totalComponentsSkip (layers : List Layer) : Nat :=
  (layers.map (fun l => match l with
    | .dictL _ c _ => c.getD 0
    | .nonDict => 0)).sum

/-- The `try` body of `_format_architecture_context` once the `layers` list
has been extracted (`list` branch, or `dict.get("layers", [])`). -/
def formatArchitectureLayers (layers : List Layer) : String :=
  let maxComponents := pyOrNat (get_validation_rule "max_components_per_layer") 10
  let sections : List String :=
    ["The application architecture consists of " ++ toString layers.length
       ++ " layers with " ++ toString (totalComponentsSkip layers) ++ " total components:",
     ""]
    ++ layers.flatMap (layerBlock maxComponents)
    ++ ["**Architectural Considerations:**",
        "- Ensure new implementations respect existing layer boundaries",
        "- Consider component interactions and dependencies",
        "- Maintain consistency with established architectural patterns"]
  String.intercalate "\n" sections

/-- `PromptConstructor._format_architecture_context`.  A falsy argument
returns the empty string before the `try` block.  A dict whose `layers`
value is not a list raises `TypeError` when the `try` body iterates it, and
the `except` clause returns the placeholder string.  (`noneV` is falsy, so
its branch below is unreachable.) -/
def format_architecture_context (arch : ArchValue) : String :=
  if !archTruthy arch then ""
  else
    match arch with
    | .noneV => ""
    | .listV l => formatArchitectureLayers l
    | .dictV l => formatArchitectureLayers l
    | .dictBadLayers => "Architecture context available but could not be processed."

/-- The `prompt_sections` list built by `_build_main_prompt` (the timestamp
string is threaded as a parameter). -/
def buildMainPromptSections (userInput : String) (nfr : List String)
    (files : List FileEntry) (arch : ArchValue) (ts : String) :
    Except String (List String) :=
  (fileContextLines files).map (fun fileSecs =>
    ["# VIBE CODING ASSISTANT - ENHANCED SPECIFICATION REQUEST",
     "**Timestamp:** " ++ ts,
     "",
     "## ORIGINAL USER REQUEST",
     "```\n" ++ userInput ++ "\n```",
     ""]
    ++ (if ¬ nfr.isEmpty then
          ["## NON-FUNCTIONAL REQUIREMENTS",
           "The following non-functional requirements must be incorporated:"]
          ++ (nfr.enum.map (fun p => toString (p.1 + 1) ++ ". " ++ p.2))
          ++ [""]
        else [])
    ++ (if archTruthy arch then
          (let archContext := format_architecture_context arch
           if archContext ≠ "" then
             ["## APPLICATION ARCHITECTURE CONTEXT", archContext, ""]
           else [])
        else [])
    ++ fileSecs)

/-- `PromptConstructor._build_main_prompt`. -/
def build_main_prompt (userInput : String) (nfr : List String)
    (files : List FileEntry) (arch : ArchValue) (ts : String) :
    Except String String :=
  (buildMainPromptSections userInput nfr files arch ts).map
    (String.intercalate "\n")

/-- `PromptConstructor._build_enhancement_instructions`. -/
def build_enhancement_instructions (enhancementType : String) : String :=
  format_enhancement_instructions enhancementType ""

/-- The metadata block of the constructor result. -/
structure ConstructMetadata where
  nfr_count : Nat
  file_count : Nat
  architecture_enabled : Bool
  architecture_layers : Nat
  enhancement_type : String
  timestamp : String
deriving DecidableEq

/-- The dict returned by `construct_enhanced_prompt`. -/
structure ConstructResult where
  system_prompt : String
  enhanced_prompt : String
  original_input : String
  enhancement_type : String
  nfr_count : Nat
  file_count : Nat
  architecture_enabled : Bool
  architecture_layers : Nat
  timestamp : String
  metadata : ConstructMetadata
deriving DecidableEq

/-- `arch_layers_count` as computed in `construct_enhanced_prompt`
(`len(arch.get("layers", []))` for dicts, `len(arch)` for lists, else 0).
For a dict whose `layers` value is not a list, `len` raises `TypeError` —
this happens in the constructor body, outside any inner handler, so the
except clause of `construct_enhanced_prompt` re-raises it. -/
def archLayersCount : ArchValue → Except String Nat
  | .noneV => .ok 0
  | .dictV l => .ok l.length
  | .listV l => .ok l.length
  | .dictBadLayers => .error "TypeError: object of type \x27int\x27 has no len()"

/-- `PromptConstructor.construct_enhanced_prompt`.  A raised exception is an
`Except.error`; note the except clause of the source logs and re-raises, so
errors from the body propagate to the caller. -/
def construct_enhanced_prompt (userInput : Option String) (nfr : List String)
    (files : List FileEntry) (arch : ArchValue) (enhancementType : String)
    (ts : String) : Except String ConstructResult :=
  match userInput with
  | none => .error "Invalid input: user_input is required and must be non-empty"
  | some u =>
    let mappedType := map_enhancement_type enhancementType
    let systemPrompt := generate_dynamic_system_prompt u mappedType arch
    match build_main_prompt u nfr files arch ts with
    | .error e => .error e
    | .ok mainPrompt =>
      match archLayersCount arch with
      | .error e => .error e
      | .ok archCount =>
        let instructions := build_enhancement_instructions mappedType
        let finalPrompt := mainPrompt ++ "\n\n" ++ instructions
        .ok { system_prompt := systemPrompt,
              enhanced_prompt := finalPrompt,
              original_input := u,
              enhancement_type := mappedType,
              nfr_count := nfr.length,
              file_count := files.length,
              architecture_enabled := archTruthy arch,
              architecture_layers := archCount,
              timestamp := ts,
              metadata :=
                { nfr_count := nfr.length,
                  file_count := files.length,
                  architecture_enabled := archTruthy arch,
                  architecture_layers := archCount,
                  enhancement_type := mappedType,
                  timestamp := ts } }

/-! ## PromptService -/

/-- One `bedrock_service.invoke_claude` call: it raises, or returns `None`
or a string. -/
inductive LlmOutcome where
  | raises (msg : String)
  | returns (response : Option String)
deriving DecidableEq

instance {ε α : Type} [DecidableEq ε] [DecidableEq α] : DecidableEq (Except ε α) :=
  fun x y =>
    match x, y with
    | .ok a, .ok b =>
      if h : a = b then .isTrue (congrArg Except.ok h)
      else .isFalse (fun he => h (Except.ok.inj he))
    | .error a, .error b =>
      if h : a = b then .isTrue (congrArg Except.error h)
      else .isFalse (fun he => h (Except.error.inj he))
    | .ok _, .error _ => .isFalse (fun he => Except.noConfusion he)
    | .error _, .ok _ => .isFalse (fun he => Except.noConfusion he)

/-- Result of `_invoke_llm_with_retry`, together with the observable attempt
count and the sleep durations (seconds) performed between attempts. -/
structure RetryResult where
  result : Except String String
  attempts : Nat
  sleeps : List Nat
deriving DecidableEq

/-- Does attempt `i` of the stubbed gateway fail?  (`raise`, `None`, or an
empty/whitespace-only response.) -/
def attemptFails (llm : Nat → LlmOutcome) (i : Nat) : Bool :=
  match llm i with
  | .raises _ => true
  | .returns none => true
  | .returns (some s) => pyStrip s = ""

/-- The exception message recorded for a failed attempt. -/
def attemptErrorMsg (llm : Nat → LlmOutcome) (i : Nat) : String :=
  match llm i with
  | .raises m => m
  | .returns _ => "Empty response from LLM"

/-- The stripped response of a successful attempt (unspecified placeholder
for failing attempts). -/
def attemptResponse (llm : Nat → LlmOutcome) (i : Nat) : String :=
  match llm i with
  | .returns (some s) => pyStrip s
  | _ => ""

/-- The `for attempt in range(max_retries)` loop of
`_invoke_llm_with_retry`: success returns the stripped response; a failure
records the error and, when attempts remain, sleeps `2 ** attempt` seconds. -/
def retryLoop (llm : Nat → LlmOutcome) (maxRetries attempt : Nat)
    (lastError : Option String) (sleeps : List Nat) : RetryResult :=
  if h : attempt < maxRetries then
    if attemptFails llm attempt then
      if attempt < maxRetries - 1 then
        retryLoop llm maxRetries (attempt + 1) (some (attemptErrorMsg llm attempt))
          (sleeps ++ [2 ^ attempt])
      else
        retryLoop llm maxRetries (attempt + 1) (some (attemptErrorMsg llm attempt))
          sleeps
    else
      { result := .ok (attemptResponse llm attempt),
        attempts := attempt + 1,
        sleeps := sleeps }
  else
    { result := .error ("LLM invocation failed after " ++ toString maxRetries
        ++ " attempts. Last error: " ++ lastError.getD "None"),
      attempts := attempt,
      sleeps := sleeps }
termination_by maxRetries - attempt
decreasing_by
  · omega
  · omega

/-- `PromptService._invoke_llm_with_retry` (with `max_retries` explicit;
the source default is 3). -/
def invoke_llm_with_retry (bedrockAvailable : Bool)
    (constructedPrompt : ConstructResult) (llm : Nat → LlmOutcome)
    (maxRetries : Nat) : RetryResult :=
  if !bedrockAvailable then
    { result := .error "BedrockService not available", attempts := 0, sleeps := [] }
  else if constructedPrompt.enhanced_prompt = "" then
    { result := .error "No prompt found in constructed_prompt", attempts := 0, sleeps := [] }
  else
    retryLoop llm maxRetries 0 none []

/-- The dict returned by `PromptService.enhance_prompt` when
`return_string_only` is false. -/
structure Envelope where
  enhanced_prompt : String
  original_input : Option String
  enhancement_type : String
  metadata : Option ConstructMetadata
  system_prompt : Option String
  error : Option String
  success : Bool
deriving DecidableEq

/-- `PromptService.enhance_prompt` with `return_string_only=False`: any
exception from construction or LLM invocation is caught and converted to the
failure envelope. -/
def prompt_service_enhance_prompt (userPrompt : Option String)
    (nfr : List String) (files : List FileEntry) (arch : ArchValue)
    (enhancementType : String) (ts : String) (bedrockAvailable : Bool)
    (llm : Nat → LlmOutcome) : Envelope :=
  let failure := fun (msg : String) =>
    { enhanced_prompt := "Enhancement failed: " ++ msg,
      original_input := userPrompt,
      enhancement_type := enhancementType,
      metadata := none,
      system_prompt := none,
      error := some msg,
      success := false : Envelope }
  match construct_enhanced_prompt userPrompt nfr files arch enhancementType ts with
  | .error e => failure e
  | .ok constructed =>
    match (invoke_llm_with_retry bedrockAvailable constructed llm 3).result with
    | .error e => failure e
    | .ok enhancedResponse =>
      { enhanced_prompt := enhancedResponse,
        original_input := userPrompt,
        enhancement_type := enhancementType,
        metadata := some constructed.metadata,
        system_prompt := some constructed.system_prompt,
        error := none,
        success := true }

/-! ## PromptService auxiliary analysis -/

/-- Python `str.split()` word collection (whitespace runs, no empties). -/
def pyWordsAux : List Char → List Char → List (List Char)
  | [], acc => if acc.isEmpty then [] else [acc.reverse]
  | c :: rest, acc =>
    if isPySpace c then
      if acc.isEmpty then pyWordsAux rest []
      else acc.reverse :: pyWordsAux rest []
    else
      pyWordsAux rest (c :: acc)

/-- `len(prompt.split())`. -/
def pyWordCount (s : String) : Nat :=
  (pyWordsAux s.data []).length

/-- `sum(layer.get("nodeCount", 0) for layer in layers)`: raises
`AttributeError` on the first non-dict layer. -/
def sumNodeCountsStrict : List Layer → Except String Nat
  | [] => .ok 0
  | .dictL _ c _ :: rest => (sumNodeCountsStrict rest).map (fun s => c.getD 0 + s)
  | .nonDict :: _ => .error "AttributeError: \x27int\x27 object has no attribute \x27get\x27"

/-- The fields of the `analyze_prompt_complexity` result that downstream
analysis observes. -/
structure ComplexityResult where
  complexity : String
  word_count : Nat
  has_architecture : Bool
  architecture_complexity : String
  recommendations : List String
  error : Option String
deriving DecidableEq

/-- `PromptService._generate_complexity_recommendations`. -/
def generate_complexity_recommendations (complexity : String) (wordCount : Nat)
    (hasArchitecture : Bool) (architectureComplexity : String) : List String :=
  let recs : List String :=
    (if complexity = "low" then
       ["Consider adding more specific requirements or context"]
     else if complexity = "high" then
       ["Consider breaking down into smaller, focused requests"]
     else [])
    ++ (if !hasArchitecture then
          ["Consider enabling architecture context for better recommendations"]
        else if architectureComplexity = "complex" then
          ["Complex architecture detected - ensure clear component boundaries"]
        else [])
    ++ (if wordCount < 20 then
          ["Very brief prompt - consider adding more detail"]
        else if wordCount > 500 then
          ["Very detailed prompt - consider focusing on key requirements"]
        else [])
  if recs ≠ [] then recs else ["Prompt complexity is appropriate"]

/-- Python truthiness of the optional `architecture_layers` argument. -/
def layersTruthy : Option (List Layer) → Bool
  | none => false
  | some l => !l.isEmpty

/-- The `try` body of `PromptService.analyze_prompt_complexity`
(thresholds come from the fallback catalog: low 150, medium 300). -/
def analyzeComplexityTry (prompt : String) (archList : Option (List Layer)) :
    Except String ComplexityResult := do
  let wordCount := pyWordCount prompt
  let lowThreshold := (complexityThresholds.lookup "low").getD 150
  let mediumThreshold := (complexityThresholds.lookup "medium").getD 300
  let complexity :=
    if wordCount < lowThreshold then "low"
    else if wordCount < mediumThreshold then "medium"
    else "high"
  let hasArchitecture := layersTruthy archList
  let architectureComplexity ←
    if hasArchitecture then do
      let totalComponents ← sumNodeCountsStrict (archList.getD [])
      pure (if totalComponents < 10 then "simple"
            else if totalComponents < 50 then "moderate"
            else "complex")
    else
      pure "none"
  let recommendations := generate_complexity_recommendations complexity
    wordCount hasArchitecture architectureComplexity
  pure { complexity := complexity,
         word_count := wordCount,
         has_architecture := hasArchitecture,
         architecture_complexity := architectureComplexity,
         recommendations := recommendations,
         error := none }

/-- `PromptService.analyze_prompt_complexity`: empty prompt short-circuits;
any exception in the body is caught and yields the `unknown` envelope. -/
def analyze_prompt_complexity (prompt : String)
    (archList : Option (List Layer)) : ComplexityResult :=
  if prompt = "" then
    { complexity := "low", word_count := 0, has_architecture := false,
      architecture_complexity := "none", recommendations := ["Prompt is empty"],
      error := none }
  else
    match analyzeComplexityTry prompt archList with
    | .ok r => r
    | .error e =>
      { complexity := "unknown", word_count := 0, has_architecture := false,
        architecture_complexity := "unknown",
        recommendations := ["Error analyzing complexity"], error := some e }

/-- The `try` body of `PromptService.suggest_improvements`.  The
file-reference extraction runs configured regular expressions through the
external `re` module; its deduplicated result is threaded in as `fileRefs`. -/
def suggestImprovementsTry (prompt : String) (archList : Option (List Layer))
    (fileRefs : List String) : Except String (List String) :=
  let complexityAnalysis := analyze_prompt_complexity prompt archList
  let fromComplexity := complexityAnalysis.recommendations
  let fromFileRefs :=
    if ¬ fileRefs.isEmpty then
      ["Found " ++ toString fileRefs.length
        ++ " file references - ensure they are accessible"]
    else []
  if layersTruthy archList then
    match sumNodeCountsStrict (archList.getD []) with
    | .error e => .error e
    | .ok totalComponents =>
      .ok ((fromComplexity ++ fromFileRefs
        ++ (if totalComponents > 20 then
              ["Large architecture - consider focusing on specific layers"]
            else [])).take 5)
  else
    .ok ((fromComplexity ++ fromFileRefs
      ++ ["Consider adding architecture context for more targeted recommendations"]).take 5)

/-- `PromptService.suggest_improvements`: any exception in the body is caught
and replaced by the single fallback suggestion. -/
def suggest_improvements (prompt : String) (archList : Option (List Layer))
    (fileRefs : List String) : List String :=
  match suggestImprovementsTry prompt archList fileRefs with
  | .ok suggestions => suggestions
  | .error _ => ["Unable to generate suggestions due to analysis error"]

/-! ## app.py `/api/enhance-prompt` handler -/

/-- Case-insensitive prefix test (the pattern is given lowercase). -/
def ciPrefix (pat : List Char) (s : List Char) : Bool :=
  pat.isPrefixOf (pyLowerList (s.take pat.length))

/-- Earliest index at which `pat` case-insensitively occurs. -/
def findCiSub (pat : List Char) : List Char → Option Nat
  | [] => if pat.isEmpty then some 0 else none
  | c :: rest =>
    if ciPrefix pat (c :: rest) then some 0
    else (findCiSub pat rest).map (· + 1)

/-- Length of a match of `re` pattern `<script[^>]*>.*?</script>`
(IGNORECASE, DOTALL) starting at the head of `s`, if any. -/
def matchScriptAt (s : List Char) : Option Nat :=
  if ciPrefix "<script".data s then
    let afterTag := s.drop 7
    let attrs := afterTag.takeWhile (fun c => c ≠ '>')
    let afterAttrs := afterTag.drop attrs.length
    match afterAttrs with
    | '>' :: body =>
      match findCiSub "</script>".data body with
      | some k => some (7 + attrs.length + 1 + k + 9)
      | none => none
    | _ => none
  else none

/-- `re.sub(r"<script[^>]*>.*?</script>", "", s, IGNORECASE | DOTALL)`:
left-to-right, non-overlapping, shortest body.  Every step consumes at least
one character, so fuel equal to the input length is exact. -/
def removeScriptFuel : Nat → List Char → List Char
  | 0, s => s
  | _ + 1, [] => []
  | fuel + 1, c :: rest =>
    match matchScriptAt (c :: rest) with
    | some n => removeScriptFuel fuel ((c :: rest).drop n)
    | none => c :: removeScriptFuel fuel rest

/-- `re.sub(r"javascript:", "", s, IGNORECASE)`. -/
def removeJsFuel : Nat → List Char → List Char
  | 0, s => s
  | _ + 1, [] => []
  | fuel + 1, c :: rest =>
    if ciPrefix "javascript:".data (c :: rest) then
      removeJsFuel fuel ((c :: rest).drop 11)
    else
      c :: removeJsFuel fuel rest

/-- The sanitization chain applied to `custom_instructions` in the handler:
strip script blocks, strip `javascript:`, then `str.strip()`. -/
def sanitizeCustomInstructions (s : String) : String :=
  pyStrip
    ⟨removeJsFuel (removeScriptFuel s.data.length s.data).length
      (removeScriptFuel s.data.length s.data)⟩

/-- Outcome of the custom-instructions validation block of the handler. -/
inductive CustomValidation where
  | notProvided
  | rejected (msg : String)
  | accepted (sanitized : String)
deriving DecidableEq

/-- The `if custom_instructions:` validation block of the handler (string
inputs; a falsy value skips the block entirely). -/
def validateCustomInstructions : Option String → CustomValidation
  | none => .notProvided
  | some s =>
    if s = "" then .notProvided
    else if s.length > 2000 then
      .rejected "Custom instructions must be 2000 characters or less"
    else if sanitizeCustomInstructions s = "" then
      .rejected "Custom instructions cannot be empty after sanitization"
    else
      .accepted (sanitizeCustomInstructions s)

/-- Keyword parameters accepted by `PromptService.enhance_prompt`. -/
def promptServiceEnhanceParams : List String :=
  ["user_prompt", "nfr_requirements", "file_context",
   "application_architecture", "enhancement_type", "return_string_only"]

/-- Keyword arguments the `/api/enhance-prompt` handler passes to
`prompt_service.enhance_prompt` (it always passes `custom_instructions`). -/
def enhanceEndpointCallKwargs : List String :=
  ["user_prompt", "nfr_requirements", "file_context",
   "application_architecture", "enhancement_type", "custom_instructions"]

/-- Keyword arguments of the handler call that the callee does not accept;
a non-empty result makes the call raise `TypeError` before the callee body
runs. -/
def unexpectedKwargs : List String :=
  enhanceEndpointCallKwargs.filter
    (fun k => !(promptServiceEnhanceParams.contains k))

/-- The `prompt_service.enhance_prompt(...)` call of the handler under Python
keyword-call semantics. -/
def callPromptServiceFromEndpoint (userPrompt : Option String)
    (nfr : List String) (files : List FileEntry) (enhancementType : String)
    (ts : String) (bedrockOk : Bool) (llm : Nat → LlmOutcome) :
    Except String Envelope :=
  match unexpectedKwargs with
  | k :: _ =>
    .error ("enhance_prompt() got an unexpected keyword argument \x27" ++ k ++ "\x27")
  | [] =>
    .ok (prompt_service_enhance_prompt userPrompt nfr files .noneV
      enhancementType ts bedrockOk llm)

/-- JSON body of a `/api/enhance-prompt` request. -/
structure ApiRequest where
  prompt : Option String
  selected_files : List FileEntry
  enhancement_type : String
  requirements : List String
  custom_instructions : Option String
deriving DecidableEq

/-- Observable handler outcome with its HTTP status class. -/
inductive EndpointResult where
  | badRequest (msg : String)
  | unavailable (msg : String)
  | serverError (msg : String)
  | okResponse (enhanced : Envelope) (enhancementType : String)
      (customUsed : Bool)
deriving DecidableEq

/-- The `/api/enhance-prompt` handler (`enhance_prompt` in `app.py`):
validates `custom_instructions`, forces `enhancement_type = "custom"` when
they survive sanitization, probes the LLM connection, then calls the prompt
service — passing the `custom_instructions` keyword argument. -/
def enhancePromptEndpoint (req : ApiRequest) (bedrockOk : Bool)
    (llm : Nat → LlmOutcome) (ts : String) : EndpointResult :=
  match req.prompt with
  | none => .badRequest "Prompt is required"
  | some userPrompt =>
    match validateCustomInstructions req.custom_instructions with
    | .rejected msg => .badRequest msg
    | validation =>
      let enhancementType :=
        match validation with
        | .accepted _ => "custom"
        | _ => req.enhancement_type
      let customUsed :=
        match validation with
        | .accepted _ => true
        | _ => false
      if !bedrockOk then .unavailable "AI service temporarily unavailable"
      else
        match callPromptServiceFromEndpoint (some userPrompt) req.requirements
          req.selected_files enhancementType ts bedrockOk llm with
        | .error e => .serverError ("Failed to enhance prompt: " ++ e)
        | .ok envelope => .okResponse envelope enhancementType customUsed

/-- A concrete constructor result used to exercise the retry loop. -/
def sampleConstructed : ConstructResult :=
  { system_prompt := "sys"
    enhanced_prompt := "prompt"
    original_input := "x"
    enhancement_type := "enhanced_prompt"
    nfr_count := 0
    file_count := 0
    architecture_enabled := false
    architecture_layers := 0
    timestamp := "T"
    metadata :=
      { nfr_count := 0
        file_count := 0
        architecture_enabled := false
        architecture_layers := 0
        enhancement_type := "enhanced_prompt"
        timestamp := "T" } }

/-- A stubbed gateway: empty, then an exception, then a padded answer. -/
def demoLlm : Nat → LlmOutcome :=
  fun i =>
    if i = 0 then .returns (some "")
    else if i = 1 then .raises "boom"
    else .returns (some "  done  ")


/-- Rendering order of the `Additional Context` sentences as the code emits
them: architecture awareness first, then feature, refactor and testing
guidance; every matched category contributes its sentence. -/
def additionalContextSpec (archOn feat refac test : Bool) : List String :=
  (if archOn then [archAwarenessSentence] else [])
  ++ (if feat then [featureSentence] else [])
  ++ (if refac then [refactorSentence] else [])
  ++ (if test then [testingSentence] else [])

/-- A concrete well-typed file descriptor. -/
def sampleFile : FileDict :=
  { name := some "a.py", path := some "src/a.py", ftype := some "file" }

/-- A concrete architecture layer. -/
def sampleLayer : Layer :=
  Layer.dictL (some "API") (some 2)
    [NodeVal.dictN (some "router") (some "service") none]

/-! ## Helper lemmas -/

theorem ne_of_head_ne (s t : String) (h : s.data.head? ≠ t.data.head?) :
    s ≠ t :=
  fun he => h (congrArg (fun x : String => x.data.head?) he)

theorem fileLinesLoop_dicts (l : List FileDict) :
    fileLinesLoop (l.map FileEntry.dict) = .ok (l.map fileBullet) := by
  induction l with
  | nil => rfl
  | cons d rest ih => simp [fileLinesLoop, ih, List.map_cons, Except.map]

theorem fileContextLines_dicts (l : List FileDict) :
    ∃ ls, fileContextLines (l.map FileEntry.dict) = .ok ls := by
  unfold fileContextLines
  by_cases h : (l.map FileEntry.dict).isEmpty
  · exact ⟨[], by rw [if_pos h]⟩
  · rw [if_neg h]
    simp only [← List.map_take, fileLinesLoop_dicts, Except.map]
    exact ⟨_, rfl⟩

theorem construct_ok_of_dicts (u : String) (nfr : List String)
    (fds : List FileDict) (arch : ArchValue) (etype ts : String)
    (harch : archWellTyped arch = true) :
    ∃ r, construct_enhanced_prompt (some u) nfr (fds.map FileEntry.dict)
      arch etype ts = .ok r
      ∧ r.file_count = fds.length ∧ r.metadata.file_count = fds.length := by
  obtain ⟨ls, hls⟩ := fileContextLines_dicts fds
  unfold construct_enhanced_prompt build_main_prompt buildMainPromptSections
  rw [hls]
  cases arch with
  | noneV => refine ⟨_, rfl, ?_, ?_⟩ <;> simp
  | dictV l => refine ⟨_, rfl, ?_, ?_⟩ <;> simp
  | listV l => refine ⟨_, rfl, ?_, ?_⟩ <;> simp
  | dictBadLayers => exact absurd harch (by decide)

theorem construct_badlayers_raises (u : String) (nfr : List String)
    (fds : List FileDict) (etype ts : String) :
    construct_enhanced_prompt (some u) nfr (fds.map FileEntry.dict)
      .dictBadLayers etype ts
      = .error "TypeError: object of type \x27int\x27 has no len()" := by
  obtain ⟨ls, hls⟩ := fileContextLines_dicts fds
  unfold construct_enhanced_prompt build_main_prompt buildMainPromptSections
  rw [hls]
  rfl

/-! ## Claims -/

/-- C1: the spec says a request with non-empty sanitized
`custom_instructions` forces `enhancement_type = custom`, replaces the
templated instructions with the custom directive, and succeeds.  The code
contradicts its own intent (both handlers claim to be "Updated to support
custom instructions"): the handler passes a `custom_instructions` keyword
argument that `PromptService.enhance_prompt` does not declare, so the call
raises `TypeError` and the handler answers with a 500-class error; moreover
nothing downstream consumes the custom text, and the forced type `custom` is
not a valid constructor type, so it would be coerced back to
`enhanced_prompt`.  This theorem evaluates the handler at such a request. -/
theorem c1_custom_instructions_broken :
    enhancePromptEndpoint
      { prompt := some "Add a login page", selected_files := [],
        enhancement_type := "enhanced_prompt", requirements := [],
        custom_instructions := some "Use exactly three bullet points" }
      true (fun _ => LlmOutcome.returns (some "ok")) "T"
      = .serverError "Failed to enhance prompt: enhance_prompt() got an unexpected keyword argument \x27custom_instructions\x27"
    ∧ validateCustomInstructions (some "Use exactly three bullet points")
        = .accepted "Use exactly three bullet points"
    ∧ map_enhancement_type "custom" = "enhanced_prompt" := by
  refine ⟨?_, ?_, ?_⟩ <;> rfl

/-- C8 counterexample: for the empty layer list the bare list is falsy and
formats to the empty string, while the `\x7blayers: []\x7d` wrapper is a
truthy dict and formats to a non-empty overview block — so the two formats
are not identical for every list. -/
theorem c8_counterexample :
    format_architecture_context (ArchValue.listV []) = ""
    ∧ format_architecture_context (ArchValue.dictV []) ≠ "" := by
  constructor
  · rfl
  · decide

/-- C8 amended: for every NON-EMPTY layer list the bare list and the
`\x7blayers: ...\x7d` wrapper format to identical section text; non-dict
layer entries are skipped — they contribute no detail lines and count zero
components — rather than failing the render. -/
theorem c8_arch_wrapper_equiv :
    (∀ L : List Layer, L ≠ [] →
      format_architecture_context (ArchValue.listV L)
        = format_architecture_context (ArchValue.dictV L))
    ∧ (∀ maxComponents : Nat, layerBlock maxComponents Layer.nonDict = [])
    ∧ (∀ L : List Layer,
        totalComponentsSkip (Layer.nonDict :: L) = totalComponentsSkip L) := by
  refine ⟨?_, ?_, ?_⟩
  · intro L hL
    cases L with
    | nil => exact absurd rfl hL
    | cons a as => rfl
  · intro maxComponents
    rfl
  · intro L
    simp [totalComponentsSkip]

theorem c8_arch_wrapper_equiv_witness :
    ([sampleLayer] : List Layer) ≠ []
    ∧ format_architecture_context (ArchValue.listV [sampleLayer])
        = format_architecture_context (ArchValue.dictV [sampleLayer]) :=
  ⟨by decide, c8_arch_wrapper_equiv.1 [sampleLayer] (by decide)⟩

/-- C5 counterexample: on input `"create"` with an architecture supplied,
the generated system prompt lists the architecture-awareness sentence BEFORE
the feature-development sentence, not after it as the claim orders them. -/
theorem c5_counterexample :
    generate_dynamic_system_prompt "create" "enhanced_prompt"
        (ArchValue.listV [sampleLayer])
      = get_system_prompt "enhanced_prompt" ++ "\n\nAdditional Context:\n"
        ++ "- " ++ archAwarenessSentence ++ "\n- " ++ featureSentence
    ∧ get_system_prompt "enhanced_prompt" ++ "\n\nAdditional Context:\n"
        ++ "- " ++ archAwarenessSentence ++ "\n- " ++ featureSentence
      ≠ get_system_prompt "enhanced_prompt" ++ "\n\nAdditional Context:\n"
        ++ "- " ++ featureSentence ++ "\n- " ++ archAwarenessSentence := by
  constructor
  · rfl
  · decide

/-- C5 amended: every matched keyword category contributes its sentence and
the `Additional Context` block lists the sentences in the fixed order
architecture-awareness (when an architecture was supplied) first, then
feature-development, refactor and testing framing. -/
theorem c5_additional_context_order :
    ∀ (userInput enhancementType : String) (arch : ArchValue),
      generate_dynamic_system_prompt userInput enhancementType arch
        = (if additionalContextSpec (archTruthy arch)
              (involves_new_features userInput) (involves_refactoring userInput)
              (involves_testing userInput) = [] then
             get_system_prompt enhancementType
           else
             get_system_prompt enhancementType ++ "\n\nAdditional Context:\n"
               ++ String.intercalate "\n"
                 ((additionalContextSpec (archTruthy arch)
                    (involves_new_features userInput)
                    (involves_refactoring userInput)
                    (involves_testing userInput)).map (fun c => "- " ++ c))) := by
  intro userInput enhancementType arch
  have hcomp : dynamicComponents userInput arch
      = additionalContextSpec (archTruthy arch)
          (involves_new_features userInput) (involves_refactoring userInput)
          (involves_testing userInput) := rfl
  unfold generate_dynamic_system_prompt
  rw [hcomp]
  by_cases hc : additionalContextSpec (archTruthy arch)
      (involves_new_features userInput) (involves_refactoring userInput)
      (involves_testing userInput) = []
  · simp [hc]
  · simp [hc]

theorem matchScriptAt_space (rest : List Char) :
    matchScriptAt (' ' :: rest) = none := by
  have h7 : "<script".data = ['<', 's', 'c', 'r', 'i', 'p', 't'] := rfl
  simp [matchScriptAt, ciPrefix, h7, pyLowerList, List.isPrefixOf]

theorem jsPrefix_space (rest : List Char) :
    ciPrefix ['j', 'a', 'v', 'a', 's', 'c', 'r', 'i', 'p', 't', ':'] (' ' :: rest)
      = false := by
  simp [ciPrefix, pyLowerList, List.isPrefixOf]

theorem removeScriptFuel_spaces :
    ∀ (fuel : Nat) (cs : List Char), (∀ c ∈ cs, c = ' ') →
      removeScriptFuel fuel cs = cs := by
  intro fuel
  induction fuel with
  | zero => intro cs _; rfl
  | succ f ih =>
    intro cs h
    cases cs with
    | nil => rfl
    | cons c rest =>
      have hc : c = ' ' := h c (by simp)
      subst hc
      simp only [removeScriptFuel, matchScriptAt_space]
      rw [ih rest (fun c hm => h c (by simp [hm]))]

theorem removeJsFuel_spaces :
    ∀ (fuel : Nat) (cs : List Char), (∀ c ∈ cs, c = ' ') →
      removeJsFuel fuel cs = cs := by
  intro fuel
  induction fuel with
  | zero => intro cs _; rfl
  | succ f ih =>
    intro cs h
    cases cs with
    | nil => rfl
    | cons c rest =>
      have hc : c = ' ' := h c (by simp)
      subst hc
      simp only [removeJsFuel, jsPrefix_space, Bool.false_eq_true, if_false]
      exact congrArg (' ' :: ·) (ih rest (fun c hm => h c (by simp [hm])))

theorem dropWhile_space_replicate (n : Nat) :
    List.dropWhile isPySpace (List.replicate n ' ') = [] := by
  induction n with
  | zero => rfl
  | succ m ih => simp [List.replicate_succ, List.dropWhile_cons, isPySpace, ih]

theorem sanitize_spaces (n : Nat) :
    sanitizeCustomInstructions (String.mk (List.replicate n ' ')) = "" := by
  have hall : ∀ c ∈ List.replicate n ' ', c = ' ' :=
    fun c hc => List.eq_of_mem_replicate hc
  unfold sanitizeCustomInstructions
  rw [show (String.mk (List.replicate n ' ')).data = List.replicate n ' ' from rfl]
  rw [removeScriptFuel_spaces _ _ hall, removeJsFuel_spaces _ _ hall]
  unfold pyStrip pyStripList
  rw [dropWhile_space_replicate]
  rfl

theorem length_mk_replicate (n : Nat) (c : Char) :
    (String.mk (List.replicate n c)).length = n := by
  show (List.replicate n c).length = n
  simp

theorem mk_replicate_ne_empty (n : Nat) (c : Char) (h : n ≠ 0) :
    String.mk (List.replicate n c) ≠ "" := by
  intro he
  have hd : List.replicate n c = ([] : List Char) := congrArg String.data he
  cases n with
  | zero => exact h rfl
  | succ m => simp [List.replicate_succ] at hd

/-- C9 counterexample: a string of exactly 2000 space characters passes the
length check but sanitizes to the empty string, so the handler rejects it —
refuting "any string of exactly 2000 characters is accepted". -/
theorem c9_counterexample :
    (String.mk (List.replicate 2000 ' ')).length = 2000
    ∧ validateCustomInstructions (some (String.mk (List.replicate 2000 ' ')))
        = .rejected "Custom instructions cannot be empty after sanitization" := by
  constructor
  · exact length_mk_replicate 2000 ' '
  · simp only [validateCustomInstructions]
    rw [if_neg (mk_replicate_ne_empty 2000 ' ' (by omega))]
    rw [if_neg (by rw [length_mk_replicate]; omega)]
    rw [if_pos (sanitize_spaces 2000)]

/-- C9 amended: any 2001-character `custom_instructions` string is rejected
with the length message; a 2000-character string passes the length check and
is accepted provided sanitization leaves it non-empty; `<script>` blocks and
`javascript:` text are stripped; a string ≤ 2000 characters whose sanitized
remainder is empty is rejected. -/
theorem c9_custom_validation :
    (∀ s : String, s.length = 2001 →
      validateCustomInstructions (some s)
        = .rejected "Custom instructions must be 2000 characters or less")
    ∧ (∀ s : String, s.length = 2000 → sanitizeCustomInstructions s ≠ "" →
      validateCustomInstructions (some s)
        = .accepted (sanitizeCustomInstructions s))
    ∧ (∀ s : String, s ≠ "" → s.length ≤ 2000 → sanitizeCustomInstructions s = "" →
      validateCustomInstructions (some s)
        = .rejected "Custom instructions cannot be empty after sanitization")
    ∧ sanitizeCustomInstructions
        "Reply briefly. <script>alert(1)</script> javascript:alert(2)"
        = "Reply briefly.  alert(2)" := by
  refine ⟨?_, ?_, ?_, rfl⟩
  · intro s hs
    have hne : s ≠ "" := by
      intro h
      rw [h] at hs
      exact absurd hs (by decide)
    simp only [validateCustomInstructions]
    rw [if_neg hne, if_pos (by omega)]
  · intro s hs hsan
    have hne : s ≠ "" := by
      intro h
      rw [h] at hs
      exact absurd hs (by decide)
    simp only [validateCustomInstructions]
    rw [if_neg hne, if_neg (by omega), if_neg hsan]
  · intro s hne hlen hsan
    simp only [validateCustomInstructions]
    rw [if_neg hne, if_neg (by omega), if_pos hsan]

theorem c9_custom_validation_witness :
    (String.mk (List.replicate 2001 'a')).length = 2001
    ∧ validateCustomInstructions (some (String.mk (List.replicate 2001 'a')))
        = .rejected "Custom instructions must be 2000 characters or less" :=
  ⟨length_mk_replicate 2001 'a',
   c9_custom_validation.1 (String.mk (List.replicate 2001 'a'))
     (length_mk_replicate 2001 'a')⟩

/-- C4 counterexample: a request whose `user_input` passes the one
validation check but whose `file_context` contains a non-dict entry makes
`_build_main_prompt` raise `AttributeError`, which
the except clause of `construct_enhanced_prompt` itself logs and RE-raises, so
construction does not "never throw" for every input past the check. -/
theorem c4_counterexample :
    validate_inputs (some "Fix the build") = true
    ∧ construct_enhanced_prompt (some "Fix the build") [] [FileEntry.nonDict]
        .noneV "enhanced_prompt" "T"
      = .error "AttributeError: \x27int\x27 object has no attribute \x27get\x27" := by
  constructor
  · rfl
  · rfl

/-- C4 amended: `construct_enhanced_prompt` raises its invalid-input error
exactly when `user_input` is `None` (the empty string is accepted); for
every input whose file-context entries are all dicts AND whose architecture
argument is `None`, a layer list, or a dict with a list-valued `layers` key
— with any requirement list and enhancement type — construction succeeds
and never throws.  A non-dict file-context entry raises `AttributeError`
(the counterexample) and a dict architecture whose `layers` value is not a
list raises `TypeError` at the layer-count computation — both re-raised by
the except clause of the constructor. -/
theorem c4_validation_and_totality :
    (∀ (nfr : List String) (files : List FileEntry) (arch : ArchValue)
       (etype ts : String),
      construct_enhanced_prompt none nfr files arch etype ts
        = .error "Invalid input: user_input is required and must be non-empty")
    ∧ (∀ (u : String) (nfr : List String) (fds : List FileDict)
         (arch : ArchValue) (etype ts : String),
      archWellTyped arch = true →
      ∃ r, construct_enhanced_prompt (some u) nfr (fds.map FileEntry.dict)
        arch etype ts = .ok r)
    ∧ (∀ (u : String) (nfr : List String) (fds : List FileDict)
         (etype ts : String),
      construct_enhanced_prompt (some u) nfr (fds.map FileEntry.dict)
        .dictBadLayers etype ts
        = .error "TypeError: object of type \x27int\x27 has no len()") := by
  refine ⟨?_, ?_, ?_⟩
  · intro nfr files arch etype ts
    rfl
  · intro u nfr fds arch etype ts harch
    obtain ⟨r, hr, -, -⟩ := construct_ok_of_dicts u nfr fds arch etype ts harch
    exact ⟨r, hr⟩
  · intro u nfr fds etype ts
    exact construct_badlayers_raises u nfr fds etype ts

theorem c4_validation_and_totality_witness :
    archWellTyped (ArchValue.listV [sampleLayer]) = true
    ∧ ∃ r, construct_enhanced_prompt (some "Fix the build") []
        ([sampleFile].map FileEntry.dict) (ArchValue.listV [sampleLayer])
        "enhanced_prompt" "T" = .ok r :=
  ⟨by decide,
   c4_validation_and_totality.2.1 "Fix the build" [] [sampleFile]
     (ArchValue.listV [sampleLayer]) "enhanced_prompt" "T" (by decide)⟩

theorem fenced_data_head (u : String) :
    ("```\n" ++ u ++ "\n```").data.head? = some '\x60' := by
  cases u with | mk l => rfl

theorem ts_data_head (ts : String) :
    ("**Timestamp:** " ++ ts).data.head? = some '*' := by
  cases ts with | mk l => rfl

/-- C6: with no requirements, no files, no architecture and no custom
instructions, the section list of the main prompt holds exactly one fenced
occurrence of the user input and none of the three optional section
headers. -/
theorem c6_minimal_prompt :
    ∀ (u ts : String), u ≠ "" →
      ∃ L, buildMainPromptSections u [] [] .noneV ts = .ok L
        ∧ L.count ("```\n" ++ u ++ "\n```") = 1
        ∧ "## NON-FUNCTIONAL REQUIREMENTS" ∉ L
        ∧ "## APPLICATION ARCHITECTURE CONTEXT" ∉ L
        ∧ "## CODEBASE CONTEXT" ∉ L := by
  intro u ts hu
  have hne1 : ("```\n" ++ u ++ "\n```")
      ≠ "# VIBE CODING ASSISTANT - ENHANCED SPECIFICATION REQUEST" :=
    ne_of_head_ne _ _ (by rw [fenced_data_head]; decide)
  have hne2 : ("```\n" ++ u ++ "\n```") ≠ "**Timestamp:** " ++ ts :=
    ne_of_head_ne _ _ (by rw [fenced_data_head, ts_data_head]; decide)
  have hne3 : ("```\n" ++ u ++ "\n```") ≠ "" :=
    ne_of_head_ne _ _ (by rw [fenced_data_head]; decide)
  have hne4 : ("```\n" ++ u ++ "\n```") ≠ "## ORIGINAL USER REQUEST" :=
    ne_of_head_ne _ _ (by rw [fenced_data_head]; decide)
  refine ⟨["# VIBE CODING ASSISTANT - ENHANCED SPECIFICATION REQUEST",
           "**Timestamp:** " ++ ts, "",
           "## ORIGINAL USER REQUEST",
           "```\n" ++ u ++ "\n```", ""], rfl, ?_, ?_, ?_, ?_⟩
  · simp [List.count_cons, hne1, hne2, hne3, hne4]
  · intro hmem
    simp only [List.mem_cons, List.not_mem_nil, or_false] at hmem
    rcases hmem with h | h | h | h | h | h
    · exact absurd h (by decide)
    · exact absurd h (ne_of_head_ne _ _ (by rw [ts_data_head]; decide))
    · exact absurd h (by decide)
    · exact absurd h (by decide)
    · exact absurd h (ne_of_head_ne _ _ (by rw [fenced_data_head]; decide))
    · exact absurd h (by decide)
  · intro hmem
    simp only [List.mem_cons, List.not_mem_nil, or_false] at hmem
    rcases hmem with h | h | h | h | h | h
    · exact absurd h (by decide)
    · exact absurd h (ne_of_head_ne _ _ (by rw [ts_data_head]; decide))
    · exact absurd h (by decide)
    · exact absurd h (by decide)
    · exact absurd h (ne_of_head_ne _ _ (by rw [fenced_data_head]; decide))
    · exact absurd h (by decide)
  · intro hmem
    simp only [List.mem_cons, List.not_mem_nil, or_false] at hmem
    rcases hmem with h | h | h | h | h | h
    · exact absurd h (by decide)
    · exact absurd h (ne_of_head_ne _ _ (by rw [ts_data_head]; decide))
    · exact absurd h (by decide)
    · exact absurd h (by decide)
    · exact absurd h (ne_of_head_ne _ _ (by rw [fenced_data_head]; decide))
    · exact absurd h (by decide)

theorem c6_minimal_prompt_witness :
    ("hello world" : String) ≠ ""
    ∧ ∃ L, buildMainPromptSections "hello world" [] [] .noneV "2025-01-01" = .ok L
        ∧ L.count ("```\n" ++ "hello world" ++ "\n```") = 1
        ∧ "## NON-FUNCTIONAL REQUIREMENTS" ∉ L
        ∧ "## APPLICATION ARCHITECTURE CONTEXT" ∉ L
        ∧ "## CODEBASE CONTEXT" ∉ L :=
  ⟨by decide, c6_minimal_prompt "hello world" "2025-01-01" (by decide)⟩

/-- C7: when more files are supplied than the configured display maximum
(10 in the embedded catalog), the rendered CODEBASE CONTEXT block shows
exactly 10 bullet entries followed by an overflow line naming exactly
`total - 10` more files; and the `file_count` metadata of the constructed
result always equals the true input length. -/
theorem c7_file_truncation_and_count :
    (∀ fds : List FileDict, 10 < fds.length →
      fileContextLines (fds.map FileEntry.dict)
        = .ok (["## CODEBASE CONTEXT",
                "Selected files for context (" ++ toString fds.length ++ " files):"]
               ++ (fds.take 10).map fileBullet
               ++ ["- ... and " ++ toString (fds.length - 10) ++ " more files", ""])
      ∧ ((fds.take 10).map fileBullet).length = 10)
    ∧ (∀ (u : String) (nfr : List String) (fds : List FileDict)
         (arch : ArchValue) (etype ts : String),
      archWellTyped arch = true →
      ∃ r, construct_enhanced_prompt (some u) nfr (fds.map FileEntry.dict)
        arch etype ts = .ok r
        ∧ r.file_count = fds.length ∧ r.metadata.file_count = fds.length)
    ∧ (∀ (u : String) (nfr : List String) (fds : List FileDict)
         (arch : ArchValue) (etype ts : String) (r : ConstructResult),
      construct_enhanced_prompt (some u) nfr (fds.map FileEntry.dict)
        arch etype ts = .ok r →
      r.file_count = fds.length ∧ r.metadata.file_count = fds.length) := by
  refine ⟨?_, ?_, ?_⟩
  · intro fds hlen
    have hmax : pyOrNat (get_validation_rule "max_file_display") 10 = 10 := rfl
    have hnonempty : ¬ (fds.map FileEntry.dict).isEmpty = true := by
      cases fds with
      | nil => simp at hlen
      | cons a as => simp
    constructor
    · unfold fileContextLines
      rw [if_neg hnonempty]
      simp only [hmax, ← List.map_take, fileLinesLoop_dicts, Except.map,
        List.length_map]
      rw [if_pos (by omega)]
      simp
    · rw [List.length_map, List.length_take]
      omega
  · intro u nfr fds arch etype ts harch
    exact construct_ok_of_dicts u nfr fds arch etype ts harch
  · intro u nfr fds arch etype ts r hr
    cases harch : archWellTyped arch with
    | true =>
      obtain ⟨r2, hr2, hc, hm⟩ := construct_ok_of_dicts u nfr fds arch etype ts harch
      rw [hr] at hr2
      rw [Except.ok.inj hr2]
      exact ⟨hc, hm⟩
    | false =>
      cases arch with
      | dictBadLayers =>
        rw [construct_badlayers_raises u nfr fds etype ts] at hr
        exact absurd hr (by simp)
      | noneV => simp [archWellTyped] at harch
      | dictV l => simp [archWellTyped] at harch
      | listV l => simp [archWellTyped] at harch

theorem c7_file_truncation_witness :
    10 < (List.replicate 11 sampleFile).length
    ∧ (fileContextLines ((List.replicate 11 sampleFile).map FileEntry.dict)
        = .ok (["## CODEBASE CONTEXT",
                "Selected files for context ("
                  ++ toString (List.replicate 11 sampleFile).length ++ " files):"]
               ++ ((List.replicate 11 sampleFile).take 10).map fileBullet
               ++ ["- ... and "
                     ++ toString ((List.replicate 11 sampleFile).length - 10)
                     ++ " more files", ""])
      ∧ (((List.replicate 11 sampleFile).take 10).map fileBullet).length = 10)
    ∧ (archWellTyped ArchValue.noneV = true
      ∧ ∃ r, construct_enhanced_prompt (some "Fix the build") []
          ((List.replicate 11 sampleFile).map FileEntry.dict) ArchValue.noneV
          "enhanced_prompt" "T" = .ok r
          ∧ r.file_count = (List.replicate 11 sampleFile).length
          ∧ r.metadata.file_count = (List.replicate 11 sampleFile).length) :=
  ⟨by decide,
   c7_file_truncation_and_count.1 (List.replicate 11 sampleFile) (by decide),
   by decide,
   c7_file_truncation_and_count.2.1 "Fix the build" [] (List.replicate 11 sampleFile)
     ArchValue.noneV "enhanced_prompt" "T" (by decide)⟩

/-- C2: for every input, `PromptService.enhance_prompt` (dict mode) returns
a well-formed envelope and never propagates an exception: on success a dict
with `success = true`, no error and the LLM text; on any exception from
construction or invocation a dict with `success = false`, the message in
`error`, and `enhanced_prompt = "Enhancement failed: <message>"`. -/
theorem c2_envelope_shape :
    ∀ (userPrompt : Option String) (nfr : List String) (files : List FileEntry)
      (arch : ArchValue) (etype ts : String) (bedrockOk : Bool)
      (llm : Nat → LlmOutcome),
      (∃ constructed s,
        construct_enhanced_prompt userPrompt nfr files arch etype ts
          = .ok constructed
        ∧ (invoke_llm_with_retry bedrockOk constructed llm 3).result = .ok s
        ∧ (prompt_service_enhance_prompt userPrompt nfr files arch etype ts
             bedrockOk llm).success = true
        ∧ (prompt_service_enhance_prompt userPrompt nfr files arch etype ts
             bedrockOk llm).error = none
        ∧ (prompt_service_enhance_prompt userPrompt nfr files arch etype ts
             bedrockOk llm).enhanced_prompt = s)
      ∨ (∃ msg,
        (prompt_service_enhance_prompt userPrompt nfr files arch etype ts
           bedrockOk llm).success = false
        ∧ (prompt_service_enhance_prompt userPrompt nfr files arch etype ts
             bedrockOk llm).error = some msg
        ∧ (prompt_service_enhance_prompt userPrompt nfr files arch etype ts
             bedrockOk llm).enhanced_prompt = "Enhancement failed: " ++ msg) := by
  intro userPrompt nfr files arch etype ts bedrockOk llm
  unfold prompt_service_enhance_prompt
  rcases hc : construct_enhanced_prompt userPrompt nfr files arch etype ts with e | constructed
  · right
    exact ⟨e, by simp, by simp, by simp⟩
  · rcases hr : (invoke_llm_with_retry bedrockOk constructed llm 3).result with e | s
    · right
      refine ⟨e, ?_, ?_, ?_⟩ <;> simp [hr]
    · left
      refine ⟨constructed, s, rfl, hr, ?_, ?_, ?_⟩ <;> simp [hr]

/-- C3: the retry-wrapped LLM invocation makes at most 3 attempts; a `None`
or empty/whitespace-only response counts as a failed attempt and is retried;
it sleeps `2 ** attempt` seconds between consecutive attempts (1s before
attempt 2, 2s before attempt 3, hence at least 1+2 seconds whenever the
first two attempts fail); a later non-empty response is returned stripped;
after three failures it raises one error naming the attempt count and the
last underlying error. -/
theorem c3_retry_policy :
    ∀ (llm : Nat → LlmOutcome) (cp : ConstructResult),
      cp.enhanced_prompt ≠ "" →
      (invoke_llm_with_retry true cp llm 3).attempts ≤ 3
      ∧ (attemptFails llm 0 = false →
          invoke_llm_with_retry true cp llm 3
            = { result := .ok (attemptResponse llm 0), attempts := 1, sleeps := [] })
      ∧ (attemptFails llm 0 = true → attemptFails llm 1 = false →
          invoke_llm_with_retry true cp llm 3
            = { result := .ok (attemptResponse llm 1), attempts := 2, sleeps := [1] })
      ∧ (attemptFails llm 0 = true → attemptFails llm 1 = true →
          attemptFails llm 2 = false →
          invoke_llm_with_retry true cp llm 3
            = { result := .ok (attemptResponse llm 2), attempts := 3,
                sleeps := [1, 2] })
      ∧ (attemptFails llm 0 = true → attemptFails llm 1 = true →
          attemptFails llm 2 = true →
          invoke_llm_with_retry true cp llm 3
            = { result := .error ("LLM invocation failed after 3 attempts. Last error: "
                  ++ attemptErrorMsg llm 2), attempts := 3, sleeps := [1, 2] }) := by
  intro llm cp hcp
  have hbase : invoke_llm_with_retry true cp llm 3 = retryLoop llm 3 0 none [] := by
    unfold invoke_llm_with_retry
    rw [if_neg (by simp), if_neg hcp]
  have hstep : ∀ (a : Nat) (le : Option String) (sl : List Nat), a < 2 →
      attemptFails llm a = true →
      retryLoop llm 3 a le sl
        = retryLoop llm 3 (a + 1) (some (attemptErrorMsg llm a)) (sl ++ [2 ^ a]) := by
    intro a le sl ha hf
    rw [retryLoop.eq_def, dif_pos (show a < 3 by omega), if_pos hf,
      if_pos (show a < 3 - 1 by omega)]
  have hsucc : ∀ (a : Nat) (le : Option String) (sl : List Nat), a < 3 →
      attemptFails llm a = false →
      retryLoop llm 3 a le sl
        = { result := .ok (attemptResponse llm a), attempts := a + 1, sleeps := sl } := by
    intro a le sl ha hf
    rw [retryLoop.eq_def, dif_pos ha]
    rw [if_neg (by rw [hf]; exact Bool.false_ne_true)]
  have hlaststep : ∀ (le : Option String) (sl : List Nat),
      attemptFails llm 2 = true →
      retryLoop llm 3 2 le sl
        = retryLoop llm 3 3 (some (attemptErrorMsg llm 2)) sl := by
    intro le sl hf
    rw [retryLoop.eq_def, dif_pos (show 2 < 3 by omega), if_pos hf,
      if_neg (show ¬ 2 < 3 - 1 by omega)]
  have hexhaust : ∀ (m : String) (sl : List Nat),
      retryLoop llm 3 3 (some m) sl
        = { result := .error ("LLM invocation failed after 3 attempts. Last error: " ++ m),
            attempts := 3, sleeps := sl } := by
    intro m sl
    rw [retryLoop.eq_def, dif_neg (show ¬ 3 < 3 by omega)]
    rfl
  refine ⟨?_, ?_, ?_, ?_, ?_⟩
  · rcases h0 : attemptFails llm 0 with _ | _
    · rw [hbase, hsucc 0 none [] (by omega) h0]
      simp
    · rcases h1 : attemptFails llm 1 with _ | _
      · rw [hbase, hstep 0 none [] (by omega) h0, hsucc 1 _ _ (by omega) h1]
        simp
      · rcases h2 : attemptFails llm 2 with _ | _
        · rw [hbase, hstep 0 none [] (by omega) h0, hstep 1 _ _ (by omega) h1,
            hsucc 2 _ _ (by omega) h2]
        · rw [hbase, hstep 0 none [] (by omega) h0, hstep 1 _ _ (by omega) h1,
            hlaststep _ _ h2, hexhaust]
  · intro h0
    rw [hbase, hsucc 0 none [] (by omega) h0]
  · intro h0 h1
    rw [hbase, hstep 0 none [] (by omega) h0, hsucc 1 _ _ (by omega) h1]
    rfl
  · intro h0 h1 h2
    rw [hbase, hstep 0 none [] (by omega) h0, hstep 1 _ _ (by omega) h1,
      hsucc 2 _ _ (by omega) h2]
    rfl
  · intro h0 h1 h2
    rw [hbase, hstep 0 none [] (by omega) h0, hstep 1 _ _ (by omega) h1,
      hlaststep _ _ h2, hexhaust]
    rfl

theorem c3_retry_policy_witness :
    sampleConstructed.enhanced_prompt ≠ ""
    ∧ invoke_llm_with_retry true sampleConstructed demoLlm 3
        = { result := .ok "done", attempts := 3, sleeps := [1, 2] } :=
  ⟨by decide,
   (c3_retry_policy demoLlm sampleConstructed (by decide)).2.2.2.1
     (by rfl) (by rfl) (by rfl)⟩

/-- C10: `suggest_improvements` always returns a list of at most 5
suggestions and never raises; when the analysis body raises internally it
returns exactly the single fallback suggestion. -/
theorem c10_suggestions_bounded :
    ∀ (prompt : String) (archList : Option (List Layer))
      (fileRefs : List String),
      (suggest_improvements prompt archList fileRefs).length ≤ 5
      ∧ (∀ e, suggestImprovementsTry prompt archList fileRefs = .error e →
          suggest_improvements prompt archList fileRefs
            = ["Unable to generate suggestions due to analysis error"]) := by
  intro prompt archList fileRefs
  constructor
  · unfold suggest_improvements
    rcases htry : suggestImprovementsTry prompt archList fileRefs with e | suggestions
    · simp
    · have hlen : suggestions.length ≤ 5 := by
        unfold suggestImprovementsTry at htry
        by_cases harch : layersTruthy archList = true
        · rw [if_pos harch] at htry
          rcases hsum : sumNodeCountsStrict (archList.getD []) with e' | total
          · rw [hsum] at htry
            exact absurd htry (by simp)
          · rw [hsum] at htry
            have := Except.ok.inj htry
            rw [← this]
            simp
        · rw [if_neg harch] at htry
          have := Except.ok.inj htry
          rw [← this]
          simp
      simpa using hlen
  · intro e htry
    unfold suggest_improvements
    rw [htry]

theorem c10_suggestions_bounded_witness :
    suggestImprovementsTry "hi" (some [Layer.nonDict]) []
      = .error "AttributeError: \x27int\x27 object has no attribute \x27get\x27"
    ∧ suggest_improvements "hi" (some [Layer.nonDict]) []
        = ["Unable to generate suggestions due to analysis error"] :=
  ⟨by rfl,
   (c10_suggestions_bounded "hi" (some [Layer.nonDict]) []).2
     "AttributeError: \x27int\x27 object has no attribute \x27get\x27" (by rfl)⟩
